import Mathlib

/-!
Shallow embedding of the Evermire journaling app's API routes
(`src/app/api/analytics/route.ts`, `src/app/api/posts/route.ts`,
`src/app/api/posts/[id]/route.ts`, `src/app/api/chat/route.ts`,
`src/app/api/debug/clear-cache/route.ts`) and the Mongoose data model
(`models/Post`, `models/User`, `models/ChatMessage`).

External services (the Gemini generative-AI calls, Cloudinary upload) are
abstracted as oracle parameters; the datastore is an explicit record of
lists; JavaScript 32-bit integer arithmetic is modelled with `Int` and an
explicit truncation.
-/

namespace Evermire

/-! ### JavaScript 32-bit arithmetic and the rolling hash -/

/-- Truncation to a 32-bit signed integer, as JavaScript `x & x` (ToInt32).
The numerals are `2^31` and `2^32`. -/
def toInt32 (n : Int) : Int := (n + 2147483648) % 4294967296 - 2147483648

/-- One iteration of the hash loop in `createContextHash`:
`hash = ((hash << 5) - hash) + char; hash = hash & hash;`.
The JS `<< 5` is itself a 32-bit operation, hence the inner truncation. -/
def hashStep (h : Int) (c : Nat) : Int := toInt32 (toInt32 (h * 32) - h + (c : Int))

/-- The hash loop over the code units of a string, starting from 0.
`Char.toNat` agrees with JS `charCodeAt` on all BMP characters; the
context strings are ASCII identifiers, digits and descriptions. -/
def hashString (s : String) : Int :=
  s.data.foldl (fun h ch => hashStep h ch.toNat) 0

/-- Modelled from the spec: the polynomial rolling hash as the spec words it,
`h := 31*h + charCode`, truncated to a 32-bit signed integer at each step. -/
def specHashStep (h : Int) (c : Nat) : Int := toInt32 (31 * h + (c : Int))

/-- Modelled from the spec: reduction of a whole string by `specHashStep`. -/
def specHash (s : String) : Int :=
  s.data.foldl (fun h ch => specHashStep h ch.toNat) 0

/-! ### Data model -/

/-- The six mental-health trait scores (also used as a sum accumulator). -/
structure Traits where
  anxiety : Nat
  depression : Nat
  stress : Nat
  happiness : Nat
  energy : Nat
  confidence : Nat
deriving DecidableEq, Repr

/-- The five overall mood buckets of the Post schema. -/
inductive Mood
  | very_happy
  | happy
  | neutral
  | sad
  | very_sad
deriving DecidableEq, Repr

/-- A journal entry (the `Post` model). `createdAt` is a millisecond timestamp. -/
structure Post where
  id : String
  userId : String
  imageUrl : String
  caption : String
  detailedMoodDescription : String
  moodDescription : String
  mentalHealthTraits : Traits
  overallMood : Mood
  createdAt : Nat
deriving DecidableEq, Repr

/-- A Suggestion Bundle: four recommendation lists. -/
structure Suggestions where
  activities : List String
  movies : List String
  songs : List String
  food : List String
deriving DecidableEq, Repr

/-- An account (the `User` model), restricted to the cache-relevant fields. -/
structure UserRec where
  id : String
  lastContextHash : Option String
  lastContextUpdatedAt : Option Nat
  cachedSuggestions : Option Suggestions
deriving DecidableEq, Repr

/-- Role of a chat message. -/
inductive ChatRole
  | user
  | assistant
deriving DecidableEq, Repr

/-- A chat message (the `ChatMessage` model). -/
structure ChatMsg where
  userId : String
  role : ChatRole
  content : String
  timestamp : Nat
deriving DecidableEq, Repr

/-- The datastore: all posts, users, chat messages. -/
structure DB where
  posts : List Post
  users : List UserRec
  chats : List ChatMsg
deriving DecidableEq, Repr

/-! ### Fingerprint (`createContextHash`) -/

/-- One part of the context string in the analytics revision of
`createContextHash`: `` `${post._id}-${post.createdAt.getTime()}-${post.detailedMoodDescription}` ``. -/
def contextPart (p : Post) : String :=
  p.id ++ "-" ++ toString p.createdAt ++ "-" ++ p.detailedMoodDescription

/-- The joined context string: `contextParts.join('|')`. -/
def contextStringOf (last3 : List Post) : String :=
  String.intercalate "|" (last3.map contextPart)

/-- `createContextHash` from `src/app/api/analytics/route.ts`: hash of the
joined context string, rendered with `hash.toString()`. -/
def createContextHash (last3 : List Post) : String :=
  toString (hashString (contextStringOf last3))

/-- One part of the context string in the earlier posts-route revision:
`` `${post._id}-${post.detailedMoodDescription}` `` (no timestamp). -/
def contextPartV1 (p : Post) : String :=
  p.id ++ "-" ++ p.detailedMoodDescription

/-- `createContextHash` from the earlier posts-route revision. -/
def createContextHashV1 (posts : List Post) : String :=
  toString (hashString (String.intercalate "|" (posts.map contextPartV1)))

/-! ### Hash lemmas -/

theorem hashStep_eq_specHashStep (h : Int) (c : Nat) :
    hashStep h c = specHashStep h c := by
  unfold hashStep specHashStep toInt32
  omega

theorem hashString_eq_specHash (s : String) : hashString s = specHash s := by
  unfold hashString specHash
  have hfun : (fun (h : Int) (ch : Char) => hashStep h ch.toNat) =
      (fun (h : Int) (ch : Char) => specHashStep h ch.toNat) := by
    funext h ch
    exact hashStep_eq_specHashStep h ch.toNat
  rw [hfun]

/-- C4: the fingerprint function is deterministic and is exactly the
spec's polynomial rolling hash (`31*h + c`, truncated to 32-bit signed at
each step, starting from 0) of the per-Entry concatenation of identifier,
creation timestamp and long-form description (identifier and description
only, in the earlier revision); invoking it twice on the same list gives
the same value. -/
theorem c4_fingerprint_deterministic :
    (∀ posts : List Post, createContextHash posts = createContextHash posts) ∧
    (∀ posts : List Post,
      createContextHash posts =
        toString (specHash (String.intercalate "|" (posts.map fun p =>
          p.id ++ "-" ++ toString p.createdAt ++ "-" ++ p.detailedMoodDescription)))) ∧
    (∀ posts : List Post,
      createContextHashV1 posts =
        toString (specHash (String.intercalate "|" (posts.map fun p =>
          p.id ++ "-" ++ p.detailedMoodDescription)))) := by
  refine ⟨fun _ => rfl, fun posts => ?_, fun posts => ?_⟩
  · unfold createContextHash contextStringOf contextPart
    rw [hashString_eq_specHash]
  · unfold createContextHashV1 contextPartV1
    rw [hashString_eq_specHash]

/-! ### Datastore queries -/

/-- Mongo sort `{ createdAt: -1 }` (newest first). -/
def postDesc (a b : Post) : Prop := b.createdAt ≤ a.createdAt

instance : DecidableRel postDesc := fun a b =>
  inferInstanceAs (Decidable (b.createdAt ≤ a.createdAt))

instance : IsTotal Post postDesc :=
  ⟨fun a b => (Nat.le_total b.createdAt a.createdAt).symm.symm⟩

instance : IsTrans Post postDesc :=
  ⟨fun _ _ _ hab hbc => Nat.le_trans hbc hab⟩

/-- Mongo sort `{ timestamp: 1 }` (oldest first). -/
def chatAsc (a b : ChatMsg) : Prop := a.timestamp ≤ b.timestamp

instance : DecidableRel chatAsc := fun a b =>
  inferInstanceAs (Decidable (a.timestamp ≤ b.timestamp))

instance : IsTotal ChatMsg chatAsc := ⟨fun a b => Nat.le_total a.timestamp b.timestamp⟩

instance : IsTrans ChatMsg chatAsc := ⟨fun _ _ _ => Nat.le_trans⟩

/-- `Post.find({ userId }).sort({ createdAt: -1 })`. -/
def findPosts (db : DB) (uid : String) : List Post :=
  List.insertionSort postDesc (db.posts.filter fun p => p.userId == uid)

/-- `ChatMessage.find({ userId }).sort({ timestamp: 1 })`. -/
def findChats (db : DB) (uid : String) : List ChatMsg :=
  List.insertionSort chatAsc (db.chats.filter fun m => m.userId == uid)

/-- `User.findById(uid)`. -/
def findUser (db : DB) (uid : String) : Option UserRec :=
  db.users.find? fun u => u.id == uid

/-- `User.findByIdAndUpdate(uid, ...)`: apply `f` to the document with that id. -/
def updateUser (db : DB) (uid : String) (f : UserRec → UserRec) : DB :=
  { db with users := db.users.map fun u => if u.id == uid then f u else u }

/-! ### Observable external effects of a request -/

/-- Effects a request handler may perform, in order. -/
inductive Effect
  | dbConnect
  | dbRead
  | dbWrite
  | aiCall
deriving DecidableEq, Repr

/-! ### Analytics aggregation (`src/app/api/analytics/route.ts`, GET) -/

/-- The six per-trait averages, each `Math.round((total / n) * 10) / 10`. -/
structure AvgScores where
  anxiety : Rat
  depression : Rat
  stress : Rat
  happiness : Rat
  energy : Rat
  confidence : Rat
deriving DecidableEq, Repr

/-- Counts of entries per mood bucket. -/
structure MoodDist where
  very_happy : Nat
  happy : Nat
  neutral : Nat
  sad : Nat
  very_sad : Nat
deriving DecidableEq, Repr

/-- Per-trait score sequences over the ten most recent posts, oldest first. -/
structure Trends where
  anxiety : List Nat
  depression : List Nat
  stress : List Nat
  happiness : List Nat
  energy : List Nat
  confidence : List Nat
deriving DecidableEq, Repr

/-- The JSON body of a successful analytics response. -/
structure AnalyticsData where
  totalPosts : Nat
  averageScores : AvgScores
  moodDistribution : MoodDist
  recentTrends : Trends
  topMoodDescriptions : List String
  suggestions : Suggestions
  posts : List Post
deriving DecidableEq, Repr

/-- JavaScript `Math.round` (round half toward positive infinity). -/
def jsRound (x : Rat) : Int := Int.floor (x + 1 / 2)

/-- `Math.round(x * 10) / 10`: round to one decimal place. -/
def round1 (x : Rat) : Rat := (jsRound (x * 10) : Rat) / 10

/-- The `totalScores` reduce step. -/
def addTraits (acc : Traits) (p : Post) : Traits :=
  { anxiety := acc.anxiety + p.mentalHealthTraits.anxiety
    depression := acc.depression + p.mentalHealthTraits.depression
    stress := acc.stress + p.mentalHealthTraits.stress
    happiness := acc.happiness + p.mentalHealthTraits.happiness
    energy := acc.energy + p.mentalHealthTraits.energy
    confidence := acc.confidence + p.mentalHealthTraits.confidence }

/-- `posts.reduce(..., { anxiety: 0, ... })`. -/
def totalScores (posts : List Post) : Traits :=
  posts.foldl addTraits ⟨0, 0, 0, 0, 0, 0⟩

/-- The `averageScores` object. -/
def averageScoresOf (posts : List Post) : AvgScores :=
  let t := totalScores posts
  let n : Rat := posts.length
  { anxiety := round1 (t.anxiety / n)
    depression := round1 (t.depression / n)
    stress := round1 (t.stress / n)
    happiness := round1 (t.happiness / n)
    energy := round1 (t.energy / n)
    confidence := round1 (t.confidence / n) }

/-- The `moodDistribution` object (count per bucket, `|| 0` for absent). -/
def moodDistributionOf (posts : List Post) : MoodDist :=
  { very_happy := posts.countP fun p => decide (p.overallMood = Mood.very_happy)
    happy := posts.countP fun p => decide (p.overallMood = Mood.happy)
    neutral := posts.countP fun p => decide (p.overallMood = Mood.neutral)
    sad := posts.countP fun p => decide (p.overallMood = Mood.sad)
    very_sad := posts.countP fun p => decide (p.overallMood = Mood.very_sad) }

/-- `recentTrends`: `posts.slice(0, 10).reverse()` mapped per trait. -/
def trendsOf (posts : List Post) : Trends :=
  let recent := (posts.take 10).reverse
  { anxiety := recent.map fun p => p.mentalHealthTraits.anxiety
    depression := recent.map fun p => p.mentalHealthTraits.depression
    stress := recent.map fun p => p.mentalHealthTraits.stress
    happiness := recent.map fun p => p.mentalHealthTraits.happiness
    energy := recent.map fun p => p.mentalHealthTraits.energy
    confidence := recent.map fun p => p.mentalHealthTraits.confidence }

/-- `[...new Set(arr)]`: deduplicate keeping the first occurrence. -/
def dedupFirst : List String → List String
  | [] => []
  | x :: xs => x :: dedupFirst (xs.filter fun y => y != x)
termination_by l => l.length
decreasing_by
  simp only [List.length_cons]
  exact Nat.lt_succ_of_le (List.length_filter_le _ xs)

/-- The successful analytics body for a non-empty post list. -/
def mkAnalyticsData (posts : List Post) (s : Suggestions) : AnalyticsData :=
  { totalPosts := posts.length
    averageScores := averageScoresOf posts
    moodDistribution := moodDistributionOf posts
    recentTrends := trendsOf posts
    topMoodDescriptions := (dedupFirst (posts.map fun p => p.detailedMoodDescription)).take 5
    suggestions := s
    posts := posts }

/-- The all-zero/empty analytics body returned when the account has no posts. -/
def zeroAnalyticsData : AnalyticsData :=
  { totalPosts := 0
    averageScores := ⟨0, 0, 0, 0, 0, 0⟩
    moodDistribution := ⟨0, 0, 0, 0, 0⟩
    recentTrends := ⟨[], [], [], [], [], []⟩
    topMoodDescriptions := []
    suggestions := ⟨[], [], [], []⟩
    posts := [] }

/-! ### Suggestion-cache decision (analytics GET, suggestion section) -/

/-- The validity check on a cached bundle:
`activities?.length > 0 && movies?.length > 0 && songs?.length > 0 && food?.length > 0`. -/
def bundleFull (c : Suggestions) : Prop :=
  0 < c.activities.length ∧ 0 < c.movies.length ∧ 0 < c.songs.length ∧ 0 < c.food.length

instance (c : Suggestions) : Decidable (bundleFull c) :=
  inferInstanceAs (Decidable (_ ∧ _ ∧ _ ∧ _))

/-- The `$unset` document clearing the three cache fields. -/
def unsetCacheFields (u : UserRec) : UserRec :=
  { u with lastContextHash := none
           lastContextUpdatedAt := none
           cachedSuggestions := none }

/-- The update document `{ cachedSuggestions: suggestions }`. -/
def cacheWrite (s : Suggestions) (u : UserRec) : UserRec :=
  { u with cachedSuggestions := some s }

/-- The update document
`{ lastContextHash, lastContextUpdatedAt, cachedSuggestions }`. -/
def contextWrite (hsh : String) (now : Nat) (s : Suggestions) (u : UserRec) : UserRec :=
  { u with lastContextHash := some hsh
           lastContextUpdatedAt := some now
           cachedSuggestions := some s }

/-- The suggestion section of the analytics GET handler, for a non-empty
`posts` list (newest first): compute the fingerprint of the last three
posts, compare with the stored one, regenerate on mismatch/absence
(persisting fingerprint, timestamp and bundle), else serve the cached
bundle when present and fully populated, regenerating and persisting the
bundle alone otherwise. `gen` abstracts `generateContextualSuggestions`
(which never throws: it catches failures and returns a fixed default).
Returns the served suggestions, the datastore afterwards, and the
effects of this section. -/
def suggestionsStep (gen : List Post → Suggestions) (uid : String) (now : Nat)
    (posts : List Post) (db : DB) : Suggestions × DB × List Effect :=
  let last3 := posts.take 3
  let currentContextHash := createContextHash last3
  let user := findUser db uid
  let storedContextHash := user.bind fun u => u.lastContextHash
  -- `!storedContextHash || storedContextHash !== currentContextHash`; the
  -- unchanged case is `storedContextHash === currentContextHash` with a
  -- truthy stored value, and `currentContextHash` (an integer rendered by
  -- `toString`) is never the empty string, so the comparison below is exact.
  if storedContextHash = some currentContextHash then
    -- context unchanged: cache hit
    match user.bind fun u => u.cachedSuggestions with
    | some c =>
      if bundleFull c then
        (c, db, [])
      else
        let s := gen last3
        (s, updateUser db uid (cacheWrite s), [Effect.aiCall, Effect.dbWrite])
    | none =>
      let s := gen last3
      (s, updateUser db uid (cacheWrite s), [Effect.aiCall, Effect.dbWrite])
  else
    -- context changed (or no stored fingerprint): regenerate
    let s := gen last3
    (s, updateUser db uid (contextWrite currentContextHash now s),
      [Effect.aiCall, Effect.dbWrite])

/-! ### Route handlers -/

/-- Response of the analytics GET route. -/
inductive AnalyticsResp
  | unauthorized
  | ok (d : AnalyticsData)
deriving DecidableEq, Repr

/-- The analytics GET handler. -/
def analyticsGET (gen : List Post → Suggestions) (session : Option String)
    (now : Nat) (db : DB) : AnalyticsResp × DB × List Effect :=
  match session with
  | none => (AnalyticsResp.unauthorized, db, [])
  | some uid =>
    if findPosts db uid = [] then
      (AnalyticsResp.ok zeroAnalyticsData, db, [Effect.dbConnect, Effect.dbRead])
    else
      (AnalyticsResp.ok
        (mkAnalyticsData (findPosts db uid)
          (suggestionsStep gen uid now (findPosts db uid) db).1),
        (suggestionsStep gen uid now (findPosts db uid) db).2.1,
        [Effect.dbConnect, Effect.dbRead, Effect.dbRead] ++
          (suggestionsStep gen uid now (findPosts db uid) db).2.2)

/-- Result of the AI mood analysis of one upload. -/
structure MoodAnalysis where
  detailedMoodDescription : String
  moodDescription : String
  mentalHealthTraits : Traits
  overallMood : Mood
deriving DecidableEq, Repr

/-- The fixed neutral fallback substituted when the AI call or its JSON
parsing throws during `analyzeMood`. -/
def fallbackAnalysis : MoodAnalysis :=
  { detailedMoodDescription :=
      "Unable to analyze mood at this time. The AI analysis could not be completed."
    moodDescription := "Unable to analyze mood at this time."
    mentalHealthTraits := ⟨5, 5, 5, 5, 5, 5⟩
    overallMood := Mood.neutral }

/-- `analyzeMood`: the Gemini call plus JSON parse is abstracted as
`oracle`; `none` models any exception thrown there, caught and replaced by
the fixed fallback. -/
def analyzeMood (oracle : Option MoodAnalysis) : MoodAnalysis :=
  match oracle with
  | some a => a
  | none => fallbackAnalysis

/-- Response of the posts POST route. -/
inductive PostsCreateResp
  | unauthorized
  | badRequest
  | created (p : Post)
deriving DecidableEq, Repr

/-- The posts POST handler (`src/app/api/posts/route.ts`): authenticate,
validate image and caption, upload, analyze (with fallback), save the new
post. The current revision does not touch the user's cache fields. -/
def postsPOST (session : Option String) (image : Option String)
    (caption : Option String) (oracle : Option MoodAnalysis)
    (newId imageUrl : String) (now : Nat) (db : DB) :
    PostsCreateResp × DB × List Effect :=
  match session with
  | none => (PostsCreateResp.unauthorized, db, [])
  | some uid =>
    match image, caption with
    | some _, some c =>
      if c = "" then
        -- an empty caption is falsy in `if (!image || !caption)`
        (PostsCreateResp.badRequest, db, [])
      else
        let analysis := analyzeMood oracle
        let post : Post :=
          { id := newId
            userId := uid
            imageUrl := imageUrl
            caption := c
            detailedMoodDescription := analysis.detailedMoodDescription
            moodDescription := analysis.moodDescription
            mentalHealthTraits := analysis.mentalHealthTraits
            overallMood := analysis.overallMood
            createdAt := now }
        (PostsCreateResp.created post, { db with posts := post :: db.posts },
          [Effect.dbConnect, Effect.dbRead, Effect.aiCall, Effect.dbConnect, Effect.dbWrite])
    | _, _ => (PostsCreateResp.badRequest, db, [])

/-- Response of the posts GET (list) route. -/
inductive PostsListResp
  | unauthorized
  | ok (ps : List Post)
deriving DecidableEq, Repr

/-- The posts GET handler: all of the account's posts, newest first. -/
def postsGET (session : Option String) (db : DB) : PostsListResp × DB × List Effect :=
  match session with
  | none => (PostsListResp.unauthorized, db, [])
  | some uid => (PostsListResp.ok (findPosts db uid), db, [Effect.dbConnect, Effect.dbRead])

/-- Response of the posts DELETE route. -/
inductive DeleteResp
  | unauthorized
  | notFound
  | ok
deriving DecidableEq, Repr

/-- The posts `[id]` DELETE handler: `findOne({ _id, userId })` ownership
check, `findByIdAndDelete`, then `$unset` of the three cache fields. -/
def postsIdDELETE (session : Option String) (postId : String) (db : DB) :
    DeleteResp × DB × List Effect :=
  match session with
  | none => (DeleteResp.unauthorized, db, [])
  | some uid =>
    match db.posts.find? fun p => p.id == postId && p.userId == uid with
    | none => (DeleteResp.notFound, db, [Effect.dbConnect, Effect.dbRead])
    | some _ =>
      let db1 : DB := { db with posts := db.posts.eraseP fun p => p.id == postId }
      let db2 := updateUser db1 uid unsetCacheFields
      (DeleteResp.ok, db2,
        [Effect.dbConnect, Effect.dbRead, Effect.dbWrite, Effect.dbWrite])

/-- Response of the chat GET route. -/
inductive ChatListResp
  | unauthorized
  | ok (msgs : List ChatMsg)
deriving DecidableEq, Repr

/-- The chat GET handler: `.sort({ timestamp: 1 }).limit(50)`. -/
def chatGET (session : Option String) (db : DB) : ChatListResp × DB × List Effect :=
  match session with
  | none => (ChatListResp.unauthorized, db, [])
  | some uid =>
    (ChatListResp.ok ((findChats db uid).take 50), db, [Effect.dbConnect, Effect.dbRead])

/-- Response of the chat POST route. -/
inductive ChatPostResp
  | unauthorized
  | badRequest
  | ok (m : ChatMsg)
deriving DecidableEq, Repr

/-- The chat POST handler: persist the user message, gather context,
obtain the assistant reply (`aiReply` abstracts `generateAIResponse`,
which never throws thanks to its fallback), persist and return it. -/
def chatPOST (aiReply : String) (session : Option String) (msg : Option String)
    (now : Nat) (db : DB) : ChatPostResp × DB × List Effect :=
  match session with
  | none => (ChatPostResp.unauthorized, db, [])
  | some uid =>
    match msg with
    | none => (ChatPostResp.badRequest, db, [])
    | some m =>
      if m = "" then
        (ChatPostResp.badRequest, db, [])
      else
        let userMsg : ChatMsg := { userId := uid, role := ChatRole.user, content := m, timestamp := now }
        let assistantMsg : ChatMsg :=
          { userId := uid, role := ChatRole.assistant, content := aiReply, timestamp := now }
        (ChatPostResp.ok assistantMsg,
          { db with chats := assistantMsg :: userMsg :: db.chats },
          [Effect.dbConnect, Effect.dbWrite, Effect.dbRead, Effect.dbRead,
            Effect.aiCall, Effect.dbWrite])

/-- Response of the debug clear-cache route. -/
inductive ClearCacheResp
  | unauthorized
  | ok
deriving DecidableEq, Repr

/-- The debug clear-cache POST handler: `$unset` the three cache fields. -/
def clearCachePOST (session : Option String) (db : DB) : ClearCacheResp × DB × List Effect :=
  match session with
  | none => (ClearCacheResp.unauthorized, db, [])
  | some uid =>
    (ClearCacheResp.ok, updateUser db uid unsetCacheFields,
      [Effect.dbConnect, Effect.dbWrite])

/-! ### Concrete fixtures used by witnesses and counterexamples -/

/-- A trivial suggestion generator used in witnesses. -/
def genW : List Post → Suggestions := fun _ => ⟨["a"], ["m"], ["s"], ["f"]⟩

/-- The empty datastore. -/
def dbEmpty : DB := ⟨[], [], []⟩

/-- C9: every client-facing handler (list/create/delete entries, analytics,
list/post chat messages, cache clear) returns the unauthorized response on
a request with no session, performing no datastore or AI effect and
leaving the datastore unchanged. -/
theorem c9_unauthenticated_untouched (gen : List Post → Suggestions) (now : Nat)
    (image caption msg : Option String) (oracle : Option MoodAnalysis)
    (newId imageUrl aiReply postId : String) (db : DB) :
    postsGET none db = (PostsListResp.unauthorized, db, []) ∧
    postsPOST none image caption oracle newId imageUrl now db =
      (PostsCreateResp.unauthorized, db, []) ∧
    postsIdDELETE none postId db = (DeleteResp.unauthorized, db, []) ∧
    analyticsGET gen none now db = (AnalyticsResp.unauthorized, db, []) ∧
    chatGET none db = (ChatListResp.unauthorized, db, []) ∧
    chatPOST aiReply none msg now db = (ChatPostResp.unauthorized, db, []) ∧
    clearCachePOST none db = (ClearCacheResp.unauthorized, db, []) :=
  ⟨rfl, rfl, rfl, rfl, rfl, rfl, rfl⟩

/-- C5: for an account with zero entries, the analytics handler returns the
response with every field present and zero or empty, without touching the
datastore and without any AI call. -/
theorem c5_zero_entries (gen : List Post → Suggestions) (uid : String) (now : Nat)
    (db : DB) (h : findPosts db uid = []) :
    analyticsGET gen (some uid) now db =
      (AnalyticsResp.ok zeroAnalyticsData, db, [Effect.dbConnect, Effect.dbRead]) ∧
    zeroAnalyticsData =
      { totalPosts := 0
        averageScores := ⟨0, 0, 0, 0, 0, 0⟩
        moodDistribution := ⟨0, 0, 0, 0, 0⟩
        recentTrends := ⟨[], [], [], [], [], []⟩
        topMoodDescriptions := []
        suggestions := ⟨[], [], [], []⟩
        posts := [] } := by
  refine ⟨?_, rfl⟩
  simp [analyticsGET, h]

/-- Witness for C5 at the empty datastore. -/
theorem c5_zero_entries_witness :
    analyticsGET genW (some "u") 0 dbEmpty =
      (AnalyticsResp.ok zeroAnalyticsData, dbEmpty, [Effect.dbConnect, Effect.dbRead]) :=
  (c5_zero_entries genW "u" 0 dbEmpty rfl).1

/-- The post built by the creation handler when the AI analysis fails. -/
def fallbackPost (uid caption newId imageUrl : String) (now : Nat) : Post :=
  { id := newId
    userId := uid
    imageUrl := imageUrl
    caption := caption
    detailedMoodDescription := fallbackAnalysis.detailedMoodDescription
    moodDescription := fallbackAnalysis.moodDescription
    mentalHealthTraits := fallbackAnalysis.mentalHealthTraits
    overallMood := fallbackAnalysis.overallMood
    createdAt := now }

/-- C6: if the AI call (or its JSON parsing) throws during mood analysis,
entry creation still succeeds, and the created entry carries the fixed
neutral fallback: all six trait scores 5, category neutral, the apologetic
fallback descriptions. -/
theorem c6_ai_failure_fallback (uid caption newId imageUrl img : String)
    (now : Nat) (db : DB) (hcap : caption ≠ "") :
    postsPOST (some uid) (some img) (some caption) none newId imageUrl now db =
      (PostsCreateResp.created (fallbackPost uid caption newId imageUrl now),
        { db with posts := fallbackPost uid caption newId imageUrl now :: db.posts },
        [Effect.dbConnect, Effect.dbRead, Effect.aiCall, Effect.dbConnect, Effect.dbWrite]) ∧
    (fallbackPost uid caption newId imageUrl now).mentalHealthTraits = ⟨5, 5, 5, 5, 5, 5⟩ ∧
    (fallbackPost uid caption newId imageUrl now).overallMood = Mood.neutral ∧
    (fallbackPost uid caption newId imageUrl now).detailedMoodDescription =
      "Unable to analyze mood at this time. The AI analysis could not be completed." ∧
    (fallbackPost uid caption newId imageUrl now).moodDescription =
      "Unable to analyze mood at this time." := by
  refine ⟨?_, rfl, rfl, rfl, rfl⟩
  simp [postsPOST, hcap, analyzeMood, fallbackPost]

/-- Witness for C6 at a concrete upload. -/
theorem c6_ai_failure_fallback_witness :
    postsPOST (some "u") (some "img") (some "c") none "p1" "url" 7 dbEmpty =
      (PostsCreateResp.created (fallbackPost "u" "c" "p1" "url" 7),
        { dbEmpty with posts := [fallbackPost "u" "c" "p1" "url" 7] },
        [Effect.dbConnect, Effect.dbRead, Effect.aiCall, Effect.dbConnect, Effect.dbWrite]) ∧
    (fallbackPost "u" "c" "p1" "url" 7).mentalHealthTraits = ⟨5, 5, 5, 5, 5, 5⟩ :=
  ⟨(c6_ai_failure_fallback "u" "c" "p1" "url" "img" 7 dbEmpty (by decide)).1,
   (c6_ai_failure_fallback "u" "c" "p1" "url" "img" 7 dbEmpty (by decide)).2.1⟩

/-- C7: deleting an entry that does not exist or is not owned by the
requesting account returns not-found and leaves the datastore entirely
unchanged; a successful deletion only happens when some entry with that
identifier belongs to the account. -/
theorem c7_delete_ownership (uid postId : String) (db : DB) :
    ((∀ p ∈ db.posts, ¬(p.id = postId ∧ p.userId = uid)) →
      postsIdDELETE (some uid) postId db =
        (DeleteResp.notFound, db, [Effect.dbConnect, Effect.dbRead])) ∧
    (∀ r, postsIdDELETE (some uid) postId db = r → r.1 = DeleteResp.ok →
      ∃ p ∈ db.posts, p.id = postId ∧ p.userId = uid) := by
  constructor
  · intro h
    have hnone : (db.posts.find? fun p => p.id == postId && p.userId == uid) = none := by
      rw [List.find?_eq_none]
      intro p hp
      simpa using h p hp
    simp [postsIdDELETE, hnone]
  · intro r hr hok
    rcases hfind : db.posts.find? fun p => p.id == postId && p.userId == uid with _ | p
    · rw [postsIdDELETE.eq_def] at hr
      simp [hfind] at hr
      rw [← hr] at hok
      simp at hok
    · refine ⟨p, List.mem_of_find?_eq_some hfind, ?_⟩
      simpa using List.find?_some hfind

/-- Witness for C7: deleting from an empty store is a not-found no-op. -/
theorem c7_delete_ownership_witness :
    postsIdDELETE (some "u") "p1" dbEmpty =
      (DeleteResp.notFound, dbEmpty, [Effect.dbConnect, Effect.dbRead]) :=
  (c7_delete_ownership "u" "p1" dbEmpty).1 (by intro p hp; cases hp)

/-- Modelled from the spec: the arithmetic mean of a list of scores. -/
def meanOf (l : List Nat) : Rat := (l.sum : Rat) / (l.length : Rat)

theorem foldl_addTraits (posts : List Post) : ∀ acc : Traits,
    posts.foldl addTraits acc =
      ⟨acc.anxiety + (posts.map fun p => p.mentalHealthTraits.anxiety).sum,
       acc.depression + (posts.map fun p => p.mentalHealthTraits.depression).sum,
       acc.stress + (posts.map fun p => p.mentalHealthTraits.stress).sum,
       acc.happiness + (posts.map fun p => p.mentalHealthTraits.happiness).sum,
       acc.energy + (posts.map fun p => p.mentalHealthTraits.energy).sum,
       acc.confidence + (posts.map fun p => p.mentalHealthTraits.confidence).sum⟩ := by
  induction posts with
  | nil => intro acc; simp
  | cons p ps ih =>
    intro acc
    simp only [List.foldl_cons, ih, List.map_cons, List.sum_cons, addTraits,
      Traits.mk.injEq]
    omega

theorem totalScores_sum (posts : List Post) :
    totalScores posts =
      ⟨(posts.map fun p => p.mentalHealthTraits.anxiety).sum,
       (posts.map fun p => p.mentalHealthTraits.depression).sum,
       (posts.map fun p => p.mentalHealthTraits.stress).sum,
       (posts.map fun p => p.mentalHealthTraits.happiness).sum,
       (posts.map fun p => p.mentalHealthTraits.energy).sum,
       (posts.map fun p => p.mentalHealthTraits.confidence).sum⟩ := by
  simpa [totalScores] using foldl_addTraits posts ⟨0, 0, 0, 0, 0, 0⟩

/-- C8: for a non-empty entry list, the analytics averages are, per trait,
the arithmetic mean of that trait's scores over all entries, rounded to
one decimal place. -/
theorem c8_trait_averages (posts : List Post) (hne : posts ≠ []) :
    (averageScoresOf posts).anxiety =
      round1 (meanOf (posts.map fun p => p.mentalHealthTraits.anxiety)) ∧
    (averageScoresOf posts).depression =
      round1 (meanOf (posts.map fun p => p.mentalHealthTraits.depression)) ∧
    (averageScoresOf posts).stress =
      round1 (meanOf (posts.map fun p => p.mentalHealthTraits.stress)) ∧
    (averageScoresOf posts).happiness =
      round1 (meanOf (posts.map fun p => p.mentalHealthTraits.happiness)) ∧
    (averageScoresOf posts).energy =
      round1 (meanOf (posts.map fun p => p.mentalHealthTraits.energy)) ∧
    (averageScoresOf posts).confidence =
      round1 (meanOf (posts.map fun p => p.mentalHealthTraits.confidence)) := by
  simp [averageScoresOf, totalScores_sum, meanOf, List.length_map]

/-- A simple post fixture with a given id/timestamp seed and happiness score. -/
def postW (n hap : Nat) : Post :=
  ⟨toString n, "u", "", "c", "d", "m", ⟨5, 5, 5, hap, 5, 5⟩, Mood.neutral, n⟩

/-- Witness for C8: happiness scores [8, 6, 4] average to exactly 6.0. -/
theorem c8_trait_averages_witness :
    (averageScoresOf [postW 1 8, postW 2 6, postW 3 4]).happiness = 6 := by
  have h := (c8_trait_averages [postW 1 8, postW 2 6, postW 3 4]
    (by simp)).2.2.2.1
  rw [h]
  norm_num [round1, jsRound, meanOf, postW]

/-- C10: the chat-history listing returns at most 50 of the account's
messages, sorted ascending by timestamp; every returned message's
timestamp is at most every omitted one's, so with more than 50 messages
the handler returns exactly the 50 oldest and omits the most recent. -/
theorem c10_chat_history_limit (uid : String) (db : DB) :
    chatGET (some uid) db =
      (ChatListResp.ok ((findChats db uid).take 50), db,
        [Effect.dbConnect, Effect.dbRead]) ∧
    List.Sorted chatAsc (findChats db uid) ∧
    ((findChats db uid).take 50).length ≤ 50 ∧
    (∀ x ∈ (findChats db uid).take 50, x.userId = uid) ∧
    (∀ x ∈ (findChats db uid).take 50, ∀ y ∈ (findChats db uid).drop 50,
      x.timestamp ≤ y.timestamp) ∧
    (50 < (findChats db uid).length →
      ((findChats db uid).take 50).length = 50 ∧ (findChats db uid).drop 50 ≠ []) := by
  have hsorted : List.Sorted chatAsc (findChats db uid) :=
    List.sorted_insertionSort chatAsc _
  refine ⟨rfl, hsorted, ?_, ?_, ?_, ?_⟩
  · simp [List.length_take]
  · intro x hx
    have hx1 : x ∈ findChats db uid := List.take_subset 50 _ hx
    have hx2 : x ∈ db.chats.filter fun m => m.userId == uid :=
      (List.perm_insertionSort chatAsc _).subset hx1
    simpa using (List.mem_filter.mp hx2).2
  · intro x hx y hy
    have hpair : List.Pairwise chatAsc
        ((findChats db uid).take 50 ++ (findChats db uid).drop 50) := by
      rw [List.take_append_drop]
      exact hsorted
    exact (List.pairwise_append.mp hpair).2.2 x hx y hy
  · intro hlen
    constructor
    · simp [List.length_take]
      omega
    · have : 0 < ((findChats db uid).drop 50).length := by
        simp [List.length_drop]
        omega
      exact List.length_pos.mp this

/-! ### Dispatch lemmas for the suggestion-cache decision -/

theorem suggestionsStep_miss (gen : List Post → Suggestions) (uid : String)
    (now : Nat) (posts : List Post) (db : DB)
    (h : ((findUser db uid).bind fun u => u.lastContextHash) ≠
      some (createContextHash (posts.take 3))) :
    suggestionsStep gen uid now posts db =
      (gen (posts.take 3),
        updateUser db uid
          (contextWrite (createContextHash (posts.take 3)) now (gen (posts.take 3))),
        [Effect.aiCall, Effect.dbWrite]) := by
  simp only [suggestionsStep]
  rw [if_neg h]

theorem suggestionsStep_hit_full (gen : List Post → Suggestions) (uid : String)
    (now : Nat) (posts : List Post) (db : DB) (c : Suggestions)
    (h1 : ((findUser db uid).bind fun u => u.lastContextHash) =
      some (createContextHash (posts.take 3)))
    (h2 : ((findUser db uid).bind fun u => u.cachedSuggestions) = some c)
    (h3 : bundleFull c) :
    suggestionsStep gen uid now posts db = (c, db, []) := by
  simp only [suggestionsStep]
  rw [if_pos h1, h2]
  simp [h3]

theorem suggestionsStep_hit_deficient (gen : List Post → Suggestions) (uid : String)
    (now : Nat) (posts : List Post) (db : DB) (c : Suggestions)
    (h1 : ((findUser db uid).bind fun u => u.lastContextHash) =
      some (createContextHash (posts.take 3)))
    (h2 : ((findUser db uid).bind fun u => u.cachedSuggestions) = some c)
    (h3 : ¬ bundleFull c) :
    suggestionsStep gen uid now posts db =
      (gen (posts.take 3),
        updateUser db uid (cacheWrite (gen (posts.take 3))),
        [Effect.aiCall, Effect.dbWrite]) := by
  simp only [suggestionsStep]
  rw [if_pos h1, h2]
  simp [h3]

theorem suggestionsStep_hit_absent (gen : List Post → Suggestions) (uid : String)
    (now : Nat) (posts : List Post) (db : DB)
    (h1 : ((findUser db uid).bind fun u => u.lastContextHash) =
      some (createContextHash (posts.take 3)))
    (h2 : ((findUser db uid).bind fun u => u.cachedSuggestions) = none) :
    suggestionsStep gen uid now posts db =
      (gen (posts.take 3),
        updateUser db uid (cacheWrite (gen (posts.take 3))),
        [Effect.aiCall, Effect.dbWrite]) := by
  simp only [suggestionsStep]
  rw [if_pos h1, h2]

/-! ### The cache coherence invariant -/

/-- Whenever an account carries a stored fingerprint, its cached bundle is
a bundle actually produced by the generator for some entry list whose
fingerprint is the stored one — i.e. the cached Suggestion Bundle is valid
exactly as far as the fingerprint scheme can tell. -/
def Inv (gen : List Post → Suggestions) (db : DB) : Prop :=
  ∀ uid u, findUser db uid = some u → ∀ hsh, u.lastContextHash = some hsh →
    ∃ entries, u.cachedSuggestions = some (gen entries) ∧
      createContextHash entries = hsh

theorem findUser_id (db : DB) (uid : String) (u : UserRec)
    (h : findUser db uid = some u) : u.id = uid := by
  have := List.find?_some h
  simpa using this

theorem findUser_updateUser (db : DB) (uid uid' : String) (f : UserRec → UserRec)
    (hid : ∀ u, (f u).id = u.id) :
    findUser (updateUser db uid f) uid' =
      (findUser db uid').map fun u => if u.id == uid then f u else u := by
  simp only [findUser, updateUser]
  rw [List.find?_map]
  have hfun : ((fun u : UserRec => u.id == uid') ∘
      fun u : UserRec => if u.id == uid then f u else u) =
      fun u : UserRec => u.id == uid' := by
    funext u
    simp only [Function.comp_apply]
    by_cases h : u.id == uid
    · rw [if_pos h, hid]
    · rw [if_neg h]
  rw [hfun]

theorem findUser_users_congr (db db' : DB) (uid : String)
    (h : db'.users = db.users) : findUser db' uid = findUser db uid := by
  simp [findUser, h]

theorem inv_users_congr (gen : List Post → Suggestions) (db db' : DB)
    (hInv : Inv gen db) (h : db'.users = db.users) : Inv gen db' := by
  intro uid u hu
  rw [findUser_users_congr db db' uid h] at hu
  exact hInv uid u hu

theorem inv_clear_update (gen : List Post → Suggestions) (db : DB) (uid : String)
    (hInv : Inv gen db) :
    Inv gen (updateUser db uid unsetCacheFields) := by
  intro uid' u' hu' hsh hlast
  rw [findUser_updateUser db uid uid' unsetCacheFields (fun u => rfl)] at hu'
  rcases Option.map_eq_some'.mp hu' with ⟨u, hu, rfl⟩
  by_cases h : u.id == uid
  · rw [if_pos h] at hlast
    exact absurd hlast (by simp [unsetCacheFields])
  · rw [if_neg h] at hlast ⊢
    exact hInv uid' u hu hsh hlast

theorem inv_cacheWrite_hit (gen : List Post → Suggestions) (uid : String)
    (posts : List Post) (db : DB)
    (h1 : ((findUser db uid).bind fun u => u.lastContextHash) =
      some (createContextHash (posts.take 3)))
    (hInv : Inv gen db) :
    Inv gen (updateUser db uid (cacheWrite (gen (posts.take 3)))) := by
  intro uid' u' hu' hsh hlast
  rw [findUser_updateUser db uid uid' (cacheWrite (gen (posts.take 3)))
    (fun u => rfl)] at hu'
  rcases Option.map_eq_some'.mp hu' with ⟨u, hu, rfl⟩
  by_cases h : u.id == uid
  · rw [if_pos h] at hlast ⊢
    have hid : u.id = uid := by simpa using h
    have huid : uid' = uid := (findUser_id db uid' u hu) ▸ hid
    rw [huid] at hu
    rw [hu] at h1
    simp only [Option.some_bind] at h1
    have hl : u.lastContextHash = some hsh := hlast
    rw [hl] at h1
    refine ⟨posts.take 3, by simp [cacheWrite], ?_⟩
    exact (Option.some.inj h1).symm
  · rw [if_neg h] at hlast ⊢
    exact hInv uid' u hu hsh hlast

theorem inv_contextWrite (gen : List Post → Suggestions) (uid : String) (now : Nat)
    (posts : List Post) (db : DB) (hInv : Inv gen db) :
    Inv gen (updateUser db uid
      (contextWrite (createContextHash (posts.take 3)) now (gen (posts.take 3)))) := by
  intro uid' u' hu' hsh hlast
  rw [findUser_updateUser db uid uid'
    (contextWrite (createContextHash (posts.take 3)) now (gen (posts.take 3)))
    (fun u => rfl)] at hu'
  rcases Option.map_eq_some'.mp hu' with ⟨u, hu, rfl⟩
  by_cases h : u.id == uid
  · rw [if_pos h] at hlast ⊢
    have hl : some (createContextHash (posts.take 3)) = some hsh := hlast
    refine ⟨posts.take 3, by simp [contextWrite], ?_⟩
    exact Option.some.inj hl
  · rw [if_neg h] at hlast ⊢
    exact hInv uid' u hu hsh hlast

theorem inv_suggestionsStep (gen : List Post → Suggestions) (uid : String)
    (now : Nat) (posts : List Post) (db : DB) (hInv : Inv gen db) :
    Inv gen (suggestionsStep gen uid now posts db).2.1 := by
  by_cases h1 : ((findUser db uid).bind fun u => u.lastContextHash) =
      some (createContextHash (posts.take 3))
  · rcases h2 : (findUser db uid).bind fun u => u.cachedSuggestions with _ | c
    · rw [suggestionsStep_hit_absent gen uid now posts db h1 h2]
      exact inv_cacheWrite_hit gen uid posts db h1 hInv
    · by_cases h3 : bundleFull c
      · rw [suggestionsStep_hit_full gen uid now posts db c h1 h2 h3]
        exact hInv
      · rw [suggestionsStep_hit_deficient gen uid now posts db c h1 h2 h3]
        exact inv_cacheWrite_hit gen uid posts db h1 hInv
  · rw [suggestionsStep_miss gen uid now posts db h1]
    exact inv_contextWrite gen uid now posts db hInv

/-- C1: the cache-validity invariant — whenever a fingerprint is stored, the
cached bundle was genuinely generated for a context whose fingerprint is the
stored one — is preserved by the analytics read, by entry creation and by
entry deletion; the cached bundle is only ever served when the stored
fingerprint equals the one recomputed from the current three most recent
entries, a served bundle is a generated bundle for a context with the
current fingerprint, and any mismatch or absent fingerprint forces
regeneration (one AI call, fingerprint and bundle rewritten together). -/
theorem c1_cache_invariant (gen : List Post → Suggestions) (db : DB)
    (hInv : Inv gen db) :
    (∀ session now, Inv gen (analyticsGET gen session now db).2.1) ∧
    (∀ session image caption oracle newId imageUrl now,
      Inv gen (postsPOST session image caption oracle newId imageUrl now db).2.1) ∧
    (∀ session postId, Inv gen (postsIdDELETE session postId db).2.1) ∧
    (∀ uid now posts, Effect.aiCall ∉ (suggestionsStep gen uid now posts db).2.2 →
      ((findUser db uid).bind fun u => u.lastContextHash) =
        some (createContextHash (posts.take 3))) ∧
    (∀ uid now posts, Effect.aiCall ∉ (suggestionsStep gen uid now posts db).2.2 →
      ∃ entries, (suggestionsStep gen uid now posts db).1 = gen entries ∧
        createContextHash entries = createContextHash (posts.take 3)) ∧
    (∀ uid now posts,
      ((findUser db uid).bind fun u => u.lastContextHash) ≠
        some (createContextHash (posts.take 3)) →
      (suggestionsStep gen uid now posts db).2.2 = [Effect.aiCall, Effect.dbWrite] ∧
      (suggestionsStep gen uid now posts db).1 = gen (posts.take 3) ∧
      ∀ u', findUser (suggestionsStep gen uid now posts db).2.1 uid = some u' →
        u'.lastContextHash = some (createContextHash (posts.take 3)) ∧
        u'.cachedSuggestions = some (gen (posts.take 3))) := by
  refine ⟨?_, ?_, ?_, ?_, ?_, ?_⟩
  · intro session now
    cases session with
    | none => exact hInv
    | some uid =>
      by_cases hp : findPosts db uid = []
      · simp only [analyticsGET]
        rw [if_pos hp]
        exact hInv
      · simp only [analyticsGET]
        rw [if_neg hp]
        exact inv_suggestionsStep gen uid now (findPosts db uid) db hInv
  · intro session image caption oracle newId imageUrl now
    cases session with
    | none => exact hInv
    | some uid =>
      cases image with
      | none => cases caption <;> exact hInv
      | some img =>
        cases caption with
        | none => exact hInv
        | some c =>
          by_cases hc : c = ""
          · simp only [postsPOST]
            rw [if_pos hc]
            exact hInv
          · simp only [postsPOST]
            rw [if_neg hc]
            exact inv_users_congr gen db _ hInv rfl
  · intro session postId
    cases session with
    | none => exact hInv
    | some uid =>
      rcases hfind : db.posts.find? fun p => p.id == postId && p.userId == uid
        with _ | p
      · simp only [postsIdDELETE]
        rw [hfind]
        exact hInv
      · simp only [postsIdDELETE]
        rw [hfind]
        exact inv_clear_update gen _ uid (inv_users_congr gen db _ hInv rfl)
  · intro uid now posts hno
    by_cases h1 : ((findUser db uid).bind fun u => u.lastContextHash) =
        some (createContextHash (posts.take 3))
    · exact h1
    · rw [suggestionsStep_miss gen uid now posts db h1] at hno
      simp at hno
  · intro uid now posts hno
    by_cases h1 : ((findUser db uid).bind fun u => u.lastContextHash) =
        some (createContextHash (posts.take 3))
    · rcases h2 : (findUser db uid).bind fun u => u.cachedSuggestions with _ | c
      · rw [suggestionsStep_hit_absent gen uid now posts db h1 h2] at hno
        simp at hno
      · by_cases h3 : bundleFull c
        · rw [suggestionsStep_hit_full gen uid now posts db c h1 h2 h3]
          rcases hu : findUser db uid with _ | u
          · rw [hu] at h1
            simp at h1
          · rw [hu] at h1 h2
            simp only [Option.some_bind] at h1 h2
            rcases hInv uid u hu (createContextHash (posts.take 3)) h1
              with ⟨entries, hcs, hhash⟩
            rw [h2] at hcs
            exact ⟨entries, Option.some.inj hcs, hhash⟩
        · rw [suggestionsStep_hit_deficient gen uid now posts db c h1 h2 h3] at hno
          simp at hno
    · rw [suggestionsStep_miss gen uid now posts db h1] at hno
      simp at hno
  · intro uid now posts h1
    rw [suggestionsStep_miss gen uid now posts db h1]
    refine ⟨rfl, rfl, ?_⟩
    intro u' hu'
    rw [findUser_updateUser db uid uid
      (contextWrite (createContextHash (posts.take 3)) now (gen (posts.take 3)))
      (fun u => rfl)] at hu'
    rcases Option.map_eq_some'.mp hu' with ⟨u, hu, rfl⟩
    have hid : u.id = uid := findUser_id db uid u hu
    rw [if_pos (by simp [hid] : (u.id == uid) = true)]
    exact ⟨rfl, rfl⟩

/-- Witness for C1: the invariant holds after deleting from a store with
no accounts. -/
theorem c1_cache_invariant_witness :
    Inv genW ((postsIdDELETE (some "u") "p" dbEmpty).2.1) :=
  (c1_cache_invariant genW dbEmpty
    (by intro uid u hu hsh hl; simp [findUser, dbEmpty] at hu)).2.2.1 (some "u") "p"

/-- The condition under which the analytics handler serves the cached
bundle without regenerating: fingerprint match and a fully populated
stored bundle. -/
def cacheServable (db : DB) (uid : String) (posts : List Post) : Prop :=
  (((findUser db uid).bind fun u => u.lastContextHash) =
    some (createContextHash (posts.take 3))) ∧
  (((findUser db uid).bind fun u => u.cachedSuggestions).elim False bundleFull)

instance (o : Option Suggestions) : Decidable (o.elim False bundleFull) :=
  match o with
  | none => inferInstanceAs (Decidable False)
  | some c => inferInstanceAs (Decidable (bundleFull c))

instance (db : DB) (uid : String) (posts : List Post) :
    Decidable (cacheServable db uid posts) :=
  inferInstanceAs (Decidable (_ ∧ _))

/-- C2 (amended): the suggestion-generation call count of one analytics
request is 0 exactly when the stored fingerprint matches the recomputed
one AND the stored bundle is present with all four category lists
non-empty, and 1 in every other case — in particular a fingerprint match
with an absent or partly empty stored bundle still triggers exactly one
call (the self-healing regeneration), so a cache miss calls exactly once
but a bare fingerprint match does not by itself guarantee zero calls. -/
theorem c2_cache_call_count (gen : List Post → Suggestions) (uid : String)
    (now : Nat) (posts : List Post) (db : DB) :
    (suggestionsStep gen uid now posts db).2.2.count Effect.aiCall =
      if cacheServable db uid posts then 0 else 1 := by
  by_cases h1 : ((findUser db uid).bind fun u => u.lastContextHash) =
      some (createContextHash (posts.take 3))
  · rcases h2 : (findUser db uid).bind fun u => u.cachedSuggestions with _ | c
    · rw [suggestionsStep_hit_absent gen uid now posts db h1 h2, if_neg]
      · rfl
      · intro hcs
        have hfull := hcs.2
        rw [h2] at hfull
        exact hfull
    · by_cases h3 : bundleFull c
      · rw [suggestionsStep_hit_full gen uid now posts db c h1 h2 h3,
          if_pos ⟨h1, by rw [h2]; exact h3⟩]
        rfl
      · rw [suggestionsStep_hit_deficient gen uid now posts db c h1 h2 h3, if_neg]
        · rfl
        · intro hcs
          have hfull := hcs.2
          rw [h2] at hfull
          exact h3 hfull
  · rw [suggestionsStep_miss gen uid now posts db h1, if_neg]
    · rfl
    · intro hcs
      exact h1 hcs.1

/-- A minimal post owned by account `u`. -/
def pC2 : Post := ⟨"a", "u", "", "c", "d", "m", ⟨5, 5, 5, 5, 5, 5⟩, Mood.neutral, 0⟩

/-- A datastore in which account `u`'s stored fingerprint matches the
recomputed one (a cache hit) but no bundle is cached. -/
def dbC2 : DB := ⟨[pC2], [⟨"u", some (createContextHash [pC2]), some 0, none⟩], []⟩

/-- Counterexample to C2 as stated: a request whose stored fingerprint
equals the freshly computed one (a cache hit) and which nevertheless
invokes the suggestion-generation call once, because the stored bundle is
absent. -/
theorem c2_counterexample :
    (((findUser dbC2 "u").bind fun u => u.lastContextHash) =
      some (createContextHash ((findPosts dbC2 "u").take 3))) ∧
    (analyticsGET genW (some "u") 0 dbC2).2.2.count Effect.aiCall = 1 := by
  constructor
  · rfl
  · decide

/-- C3: on a cache hit, an absent or partly empty stored bundle is treated
as a miss — the bundle is regenerated by one external call and persisted —
while a present, fully populated stored bundle is returned verbatim with no
external call and no datastore write. -/
theorem c3_hit_self_heal (gen : List Post → Suggestions) (uid : String)
    (now : Nat) (posts : List Post) (db : DB)
    (hhit : ((findUser db uid).bind fun u => u.lastContextHash) =
      some (createContextHash (posts.take 3))) :
    ((((findUser db uid).bind fun u => u.cachedSuggestions).elim True
        fun c => ¬ bundleFull c) →
      (suggestionsStep gen uid now posts db).1 = gen (posts.take 3) ∧
      (suggestionsStep gen uid now posts db).2.2 = [Effect.aiCall, Effect.dbWrite] ∧
      ∀ u', findUser (suggestionsStep gen uid now posts db).2.1 uid = some u' →
        u'.cachedSuggestions = some (gen (posts.take 3))) ∧
    (∀ c, ((findUser db uid).bind fun u => u.cachedSuggestions) = some c →
      bundleFull c → suggestionsStep gen uid now posts db = (c, db, [])) := by
  constructor
  · intro hdef
    have hstep : suggestionsStep gen uid now posts db =
        (gen (posts.take 3), updateUser db uid (cacheWrite (gen (posts.take 3))),
          [Effect.aiCall, Effect.dbWrite]) := by
      rcases h2 : (findUser db uid).bind fun u => u.cachedSuggestions with _ | c
      · exact suggestionsStep_hit_absent gen uid now posts db hhit h2
      · rw [h2] at hdef
        exact suggestionsStep_hit_deficient gen uid now posts db c hhit h2 hdef
    rw [hstep]
    refine ⟨rfl, rfl, ?_⟩
    intro u' hu'
    rw [findUser_updateUser db uid uid (cacheWrite (gen (posts.take 3)))
      (fun u => rfl)] at hu'
    rcases Option.map_eq_some'.mp hu' with ⟨u, hu, rfl⟩
    have hid : u.id = uid := findUser_id db uid u hu
    rw [if_pos (by simp [hid] : (u.id == uid) = true)]
    rfl
  · intro c h2 h3
    exact suggestionsStep_hit_full gen uid now posts db c hhit h2 h3

/-- Witness for C3 at the hit-with-absent-bundle fixture. -/
theorem c3_hit_self_heal_witness :
    (suggestionsStep genW "u" 0 [pC2] dbC2).2.2 = [Effect.aiCall, Effect.dbWrite] :=
  ((c3_hit_self_heal genW "u" 0 [pC2] dbC2 rfl).1 (by exact trivial)).2.1

/-- A chat message fixture at a given timestamp. -/
def chatW (i : Nat) : ChatMsg := ⟨"u", ChatRole.user, "", i⟩

/-- A datastore holding 51 chat messages for account `u`. -/
def dbC10 : DB := ⟨[], [], (List.range 51).map chatW⟩

/-- Witness for C10: with 51 messages, exactly 50 are returned and at
least one (the most recent) is omitted. -/
theorem c10_chat_history_limit_witness :
    ((findChats dbC10 "u").take 50).length = 50 ∧
    (findChats dbC10 "u").drop 50 ≠ [] :=
  (c10_chat_history_limit "u" dbC10).2.2.2.2.2 (by decide)

end Evermire
